import Mathlib

/-!
Verification development for the `agent-ws-example` repository: a
real-time duplex audio-conversation client.  The Lean definitions below
are shallow embeddings of the Go source:

* the protocol codec (`messages.go`, given as `src/unnamed/part_001`):
  a discriminated-union JSON message envelope with type-driven decode
  dispatch (`UnmarshalMessage`);
* the session layer (`session.go`, given as `src/unnamed/part_000`):
  reader loop, keep-alive loop, close barrier, `Send`;
* the handshake client (`client.go`, `Client.NewSession`);
* the turn-taking controller and the audio chunker (`main.go`,
  `listenForResponses` and `sendAudioFile`).

JSON documents are modelled at the level of the parsed document tree
(`Json` below); Go's `encoding/json` byte serialisation is injective on
that tree, so claims about "byte buffers" are settled on the tree.
-/

/-- Parsed JSON document tree.  Go's `encoding/json` unmarshals into
exactly this shape (`map[string]interface{}` values are objects, etc.).
Numbers are modelled as integers; no claim depends on float values. -/
inductive Json where
  | null : Json
  | bool (b : Bool) : Json
  | num (n : Int) : Json
  | str (s : String) : Json
  | arr (xs : List Json) : Json
  | obj (fields : List (String × Json)) : Json

/-- Last binding of key `k` in an object's field list: Go's
`encoding/json` lets a later duplicate key win. -/
def jLookup (fields : List (String × Json)) (k : String) : Option Json :=
  fields.foldl (fun acc kv => if kv.1 = k then some kv.2 else acc) none

/-- Insert-or-replace, modelling assignment into a Go map: a repeated
key overwrites the stored value. -/
def mdSet (k : String) (v : Json) : List (String × Json) → List (String × Json)
  | [] => [(k, v)]
  | (k', v') :: rest =>
    if k' = k then (k, v) :: rest else (k', v') :: mdSet k v rest

/-- Build the association list a Go `map[string]interface{}` holds after
unmarshalling an object's fields one by one (duplicate keys: last wins).
A Go map is unordered, so the list is a representation up to key order;
object key order never influences any decode result in this model. -/
def buildMap (fields : List (String × Json)) : List (String × Json) :=
  fields.foldl (fun m kv => mdSet kv.1 kv.2 m) []

/-! ## Protocol message types (`messages.go`) -/

/-- Go type `MessageType string`; the constants below are the tags. -/
abbrev MessageType := String

def MessageTypeStart : MessageType := "start"

def MessageTypeAck : MessageType := "ack"

def MessageTypeMediaInput : MessageType := "media_input"

def MessageTypeDTMF : MessageType := "dtmf"

def MessageTypeCustom : MessageType := "custom"

def MessageTypeMediaOutput : MessageType := "media_output"

def MessageTypeClear : MessageType := "clear"

/-- Go type `InputFormat string` (the codec does not validate the value
against the four named constants, so the model is the raw string). -/
abbrev InputFormat := String

/-- Go `StreamConfig` struct: one field tagged `input_format`. -/
structure StreamConfig where
  input_format : InputFormat
deriving DecidableEq

/-- Go `Metadata = map[string]interface{}`, held in canonical form:
an association list of string keys to JSON values. -/
abbrev Metadata := List (String × Json)

/-- Go `Media` struct: one field tagged `payload` (base64 audio). -/
structure Media where
  payload : String
deriving DecidableEq

/-- Go `StartMessage` struct, JSON tags event, stream_id, config, metadata. -/
structure StartMessage where
  event : MessageType
  stream_id : String
  config : StreamConfig
  metadata : Metadata

/-- Go `AckMessage` struct, JSON tags event, stream_id, config. -/
structure AckMessage where
  event : MessageType
  stream_id : String
  config : StreamConfig
deriving DecidableEq

/-- Go `MediaInputMessage` struct, JSON tags event, stream_id, media. -/
structure MediaInputMessage where
  event : MessageType
  stream_id : String
  media : Media
deriving DecidableEq

/-- Go `DTMFMessage` struct, JSON tags event, stream_id, dtmf. -/
structure DTMFMessage where
  event : MessageType
  stream_id : String
  dtmf : String
deriving DecidableEq

/-- Go `CustomMessage` struct, JSON tags event, stream_id, metadata. -/
structure CustomMessage where
  event : MessageType
  stream_id : String
  metadata : Metadata

/-- Go `MediaOutputMessage` struct, JSON tags event, stream_id, media. -/
structure MediaOutputMessage where
  event : MessageType
  stream_id : String
  media : Media
deriving DecidableEq

/-- Go `ClearMessage` struct, JSON tags event, stream_id. -/
structure ClearMessage where
  event : MessageType
  stream_id : String
deriving DecidableEq

/-- The Go `Message` interface: the closed union of the seven variants
that implement `Type()`. -/
inductive Message where
  | start (m : StartMessage) : Message
  | ack (m : AckMessage) : Message
  | mediaInput (m : MediaInputMessage) : Message
  | dtmf (m : DTMFMessage) : Message
  | custom (m : CustomMessage) : Message
  | mediaOutput (m : MediaOutputMessage) : Message
  | clear (m : ClearMessage) : Message

/-- The `Type()` method of each variant (`messages.go`). -/
def Message.type : Message → MessageType
  | .start _ => MessageTypeStart
  | .ack _ => MessageTypeAck
  | .mediaInput _ => MessageTypeMediaInput
  | .dtmf _ => MessageTypeDTMF
  | .custom _ => MessageTypeCustom
  | .mediaOutput _ => MessageTypeMediaOutput
  | .clear _ => MessageTypeClear

/-! ## Encoding (Go `json.Marshal` on the message structs)

`json.Marshal` emits the struct fields in declaration order under their
JSON tags; a map marshals to an object with sorted keys (canonical
`Metadata` is already sorted); none of the fields carry `omitempty`. -/

def marshalStreamConfig (c : StreamConfig) : Json :=
  .obj [("input_format", .str c.input_format)]

def marshalMetadata (md : Metadata) : Json := .obj md

def marshalMedia (m : Media) : Json := .obj [("payload", .str m.payload)]

/-- `json.Marshal` on each message struct. -/
def marshalMessage : Message → Json
  | .start m => .obj [("event", .str m.event), ("stream_id", .str m.stream_id),
      ("config", marshalStreamConfig m.config), ("metadata", marshalMetadata m.metadata)]
  | .ack m => .obj [("event", .str m.event), ("stream_id", .str m.stream_id),
      ("config", marshalStreamConfig m.config)]
  | .mediaInput m => .obj [("event", .str m.event), ("stream_id", .str m.stream_id),
      ("media", marshalMedia m.media)]
  | .dtmf m => .obj [("event", .str m.event), ("stream_id", .str m.stream_id),
      ("dtmf", .str m.dtmf)]
  | .custom m => .obj [("event", .str m.event), ("stream_id", .str m.stream_id),
      ("metadata", marshalMetadata m.metadata)]
  | .mediaOutput m => .obj [("event", .str m.event), ("stream_id", .str m.stream_id),
      ("media", marshalMedia m.media)]
  | .clear m => .obj [("event", .str m.event), ("stream_id", .str m.stream_id)]

/-! ## Decoding (Go `json.Unmarshal` into the message structs)

`json.Unmarshal` semantics mirrored here: a missing field keeps the
struct field's zero value; JSON `null` leaves the target untouched (so a
fresh struct keeps its zero value); a present field whose JSON type is
incompatible with the struct field is an error; unknown object keys are
ignored; unmarshalling a non-object document into a struct is an error. -/

/-- The error cases of `UnmarshalMessage`: the `ErrUnknownMessageType`
sentinel, or a `json` type/syntax error. -/
inductive DecodeError where
  | unknownMessageType : DecodeError
  | typeError : DecodeError
deriving DecidableEq

/-- Unmarshal a JSON value into a Go `string` field whose current value
is the zero string. -/
def decodeString : Json → Except DecodeError String
  | .str s => .ok s
  | .null => .ok ""
  | _ => .error .typeError

/-- Unmarshal one struct field: absent keeps the zero value `dflt`. -/
def decodeField (fields : List (String × Json)) (k : String)
    (dec : Json → Except DecodeError α) (dflt : α) : Except DecodeError α :=
  match jLookup fields k with
  | none => .ok dflt
  | some v => dec v

/-- Unmarshal into a zero-valued Go `StreamConfig`. -/
def decodeStreamConfig : Json → Except DecodeError StreamConfig
  | .null => .ok ⟨""⟩
  | .obj fs => do
    let fmt ← decodeField fs "input_format" decodeString ""
    .ok ⟨fmt⟩
  | _ => .error .typeError

/-- Unmarshal into a zero-valued Go `Media`. -/
def decodeMedia : Json → Except DecodeError Media
  | .null => .ok ⟨""⟩
  | .obj fs => do
    let p ← decodeField fs "payload" decodeString ""
    .ok ⟨p⟩
  | _ => .error .typeError

/-- Unmarshal into a nil Go `Metadata` map (an unmarshalled object's
fields land in the map in canonical form). -/
def decodeMetadata : Json → Except DecodeError Metadata
  | .null => .ok []
  | .obj fs => .ok (buildMap fs)
  | _ => .error .typeError

/-- `json.Unmarshal(data, &AckMessage{})`. -/
def decodeAck : Json → Except DecodeError AckMessage
  | .null => .ok ⟨"", "", ⟨""⟩⟩
  | .obj fs => do
    let ev ← decodeField fs "event" decodeString ""
    let sid ← decodeField fs "stream_id" decodeString ""
    let cfg ← decodeField fs "config" decodeStreamConfig ⟨""⟩
    .ok ⟨ev, sid, cfg⟩
  | _ => .error .typeError

/-- `json.Unmarshal(data, &MediaOutputMessage{})`. -/
def decodeMediaOutput : Json → Except DecodeError MediaOutputMessage
  | .null => .ok ⟨"", "", ⟨""⟩⟩
  | .obj fs => do
    let ev ← decodeField fs "event" decodeString ""
    let sid ← decodeField fs "stream_id" decodeString ""
    let md ← decodeField fs "media" decodeMedia ⟨""⟩
    .ok ⟨ev, sid, md⟩
  | _ => .error .typeError

/-- `json.Unmarshal(data, &ClearMessage{})`. -/
def decodeClear : Json → Except DecodeError ClearMessage
  | .null => .ok ⟨"", ""⟩
  | .obj fs => do
    let ev ← decodeField fs "event" decodeString ""
    let sid ← decodeField fs "stream_id" decodeString ""
    .ok ⟨ev, sid⟩
  | _ => .error .typeError

/-- `json.Unmarshal(data, &DTMFMessage{})`. -/
def decodeDTMF : Json → Except DecodeError DTMFMessage
  | .null => .ok ⟨"", "", ""⟩
  | .obj fs => do
    let ev ← decodeField fs "event" decodeString ""
    let sid ← decodeField fs "stream_id" decodeString ""
    let d ← decodeField fs "dtmf" decodeString ""
    .ok ⟨ev, sid, d⟩
  | _ => .error .typeError

/-- `json.Unmarshal(data, &CustomMessage{})`. -/
def decodeCustom : Json → Except DecodeError CustomMessage
  | .null => .ok ⟨"", "", []⟩
  | .obj fs => do
    let ev ← decodeField fs "event" decodeString ""
    let sid ← decodeField fs "stream_id" decodeString ""
    let md ← decodeField fs "metadata" decodeMetadata []
    .ok ⟨ev, sid, md⟩
  | _ => .error .typeError

/-- The first `json.Unmarshal` in `UnmarshalMessage`, into the unnamed
`struct { Event MessageType }`, extracting only the discriminator. -/
def unmarshalEnvelope : Json → Except DecodeError MessageType
  | .null => .ok ""
  | .obj fs => decodeField fs "event" decodeString ""
  | _ => .error .typeError

/-- Go `UnmarshalMessage` (`messages.go`): decode the discriminator,
select the variant by the switch (only ack, media_output, clear, dtmf
and custom have cases), fail with `ErrUnknownMessageType` when no case
matched, and otherwise fully unmarshal the payload into the variant. -/
def UnmarshalMessage (data : Json) : Except DecodeError Message := do
  let ev ← unmarshalEnvelope data
  if ev = MessageTypeAck then (decodeAck data).map .ack
  else if ev = MessageTypeMediaOutput then (decodeMediaOutput data).map .mediaOutput
  else if ev = MessageTypeClear then (decodeClear data).map .clear
  else if ev = MessageTypeDTMF then (decodeDTMF data).map .dtmf
  else if ev = MessageTypeCustom then (decodeCustom data).map .custom
  else .error .unknownMessageType

/-! ## Base64 (`encoding/base64` StdEncoding, used by `main.go`)

Bytes are `Nat`s below 256; encoded characters are their code points.
`StdEncoding` pads with `=` to a multiple of four characters and rejects
input that is not a padded multiple of four. -/

/-- The standard base64 alphabet, as character code points. -/
def b64alphabet : List Nat :=
  "ABCDEFGHIJKLMNOPQRSTUVWXYZabcdefghijklmnopqrstuvwxyz0123456789+/".toList.map Char.toNat

/-- Code point of the sextet `n` in the standard alphabet. -/
def b64char (n : Nat) : Nat := (b64alphabet.get? n).getD 0

/-- Code point of the padding character of `StdEncoding`. -/
def b64padChar : Nat := 61

/-- Position of a code point in the alphabet; `none` for a non-alphabet
character (a decode error in Go). -/
def b64index (c : Nat) : Option Nat := b64alphabet.indexOf? c

/-- `base64.StdEncoding.EncodeToString` on a byte list, three bytes to
four characters, with `=` padding on a short final group. -/
def b64encode : List Nat → List Nat
  | [] => []
  | [a] => [b64char (a / 4), b64char (a % 4 * 16), b64padChar, b64padChar]
  | [a, b] => [b64char (a / 4), b64char (a % 4 * 16 + b / 16), b64char (b % 16 * 4), b64padChar]
  | a :: b :: c :: rest =>
    b64char (a / 4) :: b64char (a % 4 * 16 + b / 16) :: b64char (b % 16 * 4 + c / 64) ::
      b64char (c % 64) :: b64encode rest

/-- `base64.StdEncoding.DecodeString`: `none` models a decode error
(non-alphabet character, bad length, or data after padding). -/
def b64decode : List Nat → Option (List Nat)
  | [] => some []
  | w :: x :: y :: z :: rest =>
    match b64index w, b64index x with
    | some s1, some s2 =>
      if z = b64padChar ∧ y = b64padChar ∧ rest = [] then
        some [s1 * 4 + s2 / 16]
      else if z = b64padChar ∧ rest = [] then
        match b64index y with
        | some s3 => some [s1 * 4 + s2 / 16, s2 % 16 * 16 + s3 / 4]
        | none => none
      else
        match b64index y, b64index z, b64decode rest with
        | some s3, some s4, some ds =>
          some ((s1 * 4 + s2 / 16) :: (s2 % 16 * 16 + s3 / 4) :: (s3 % 4 * 64 + s4) :: ds)
        | _, _, _ => none
    | _, _ => none
  | _ => none

/-- `base64.StdEncoding.DecodeString` applied to a Go string. -/
def b64decodeStr (p : String) : Option (List Nat) :=
  b64decode (p.toList.map Char.toNat)

/-! ## Audio chunker (`main.go`, `sendAudioFile`) -/

/-- `CHUNK_SIZE` constant of `main.go`: 0.1 seconds at 44.1kHz times two
bytes per sample. -/
def CHUNK_SIZE : Nat := 8820

/-- The chunking loop of `sendAudioFile`: `for offset := 0; offset <
len(audioData); offset += CHUNK_SIZE`, each iteration taking the slice
`audioData[offset:min(offset+CHUNK_SIZE, len)]`.  The list of chunks in
send order. -/
def sendChunks (data : List Nat) : List (List Nat) :=
  if h : data = [] then []
  else data.take CHUNK_SIZE :: sendChunks (data.drop CHUNK_SIZE)
termination_by data.length
decreasing_by
  have hd : 0 < data.length := List.length_pos.mpr h
  simp only [List.length_drop, CHUNK_SIZE]
  omega

/-- Chunk lengths produced by the loop, as a function of the buffer
length alone. -/
def chunkLens (n : Nat) : List Nat :=
  if n = 0 then [] else min CHUNK_SIZE n :: chunkLens (n - CHUNK_SIZE)
termination_by n
decreasing_by simp only [CHUNK_SIZE]; omega

/-! ## Session layer (`session.go`)

The session owns one socket, a cancellation token, a mailbox channel of
capacity 10, and two background loops (`read` and `ping`). -/

/-- `ErrSessionClosed`, declared in `session.go` (`errors.New("session
is closed")`).  The declaration is never referenced by any code path. -/
inductive SendOutcome where
  | wrote (frame : Json) : SendOutcome
  | errSessionClosed : SendOutcome
  | marshalError : SendOutcome

/-- `session.Send`: marshal the message and write the payload to the
socket as one text frame.  The body consults no lifecycle state, so the
model takes the session's closed flag as an (ignored) argument: whether
`Close` has already returned does not change the control flow. -/
def sessionSend (closedAlready : Bool) (m : Message) : SendOutcome :=
  SendOutcome.wrote (marshalMessage m)

/-- One occurrence on the socket as seen by the reader loop: a readable
text frame (already parsed to its JSON tree) or a transport-level read
error (including cancellation). -/
inductive ReadEvt where
  | frame (j : Json) : ReadEvt
  | readErr : ReadEvt

def ReadEvt.isFrame : ReadEvt → Bool
  | .frame _ => true
  | .readErr => false

/-- `session.read`: block on `conn.Read`; a transport error logs and
returns (the deferred `s.cancel()` fires); a frame that fails
`UnmarshalMessage` logs and continues; a decoded message is pushed to
the mailbox.  The result is the ordered list of mailbox pushes plus
whether the loop has exited (firing the shared cancellation token).  An
exhausted script means the loop is still blocked in `conn.Read`. -/
def readLoop : List ReadEvt → List Message × Bool
  | [] => ([], false)
  | .frame j :: rest =>
    match UnmarshalMessage j with
    | .error _ => readLoop rest
    | .ok m =>
      let r := readLoop rest
      (m :: r.1, r.2)
  | .readErr :: _ => ([], true)

/-- Specification-side description of the mailbox content: the frames
before the first transport error, decoded, in arrival order, with
undecodable frames dropped. -/
def mailboxSpec (evts : List ReadEvt) : List Message :=
  (evts.takeWhile ReadEvt.isFrame).filterMap fun e =>
    match e with
    | .frame j => (UnmarshalMessage j).toOption
    | .readErr => none

/-- Specification-side description of the cancellation token after the
script: fired exactly when a transport-level read error occurred. -/
def cancelSpec (evts : List ReadEvt) : Bool :=
  evts.any fun e => !e.isFrame

/-! ## Handshake client (`client.go`, `Client.NewSession`) -/

/-- What the handshake's `select` observes: the first message delivered
by the new session's mailbox, or the context deadline expiring first. -/
inductive FirstInbound where
  | received (m : Message) : FirstInbound
  | deadlineExpired : FirstInbound

/-- The result value of `Client.NewSession`. -/
inductive HandshakeResult where
  | success : HandshakeResult
  | dialFailed : HandshakeResult
  | sendFailed : HandshakeResult
  | unexpectedFirstMessage (got : MessageType) : HandshakeResult
  | timedOut : HandshakeResult
deriving DecidableEq

/-- Control flow of `Client.NewSession` after a successful dial: send
the Start descriptor (closing the session if the send fails), then
select on the first inbound message versus the context deadline; a
non-Ack first message or a deadline expiry returns an error.  The
second component records whether `s.Close()` ran before returning —
only the failed-send path calls it. -/
def establishSession (sendFails : Bool) (first : FirstInbound) :
    HandshakeResult × Bool :=
  if sendFails then (.sendFailed, true)
  else
    match first with
    | .received (.ack _) => (.success, false)
    | .received m => (.unexpectedFirstMessage m.type, false)
    | .deadlineExpired => (.timedOut, false)

/-- Whether a handshake result is a failure (`NewSession` returned a
non-nil error). -/
def HandshakeResult.isFailure : HandshakeResult → Bool
  | .success => false
  | _ => true

/-! ## Session close barrier (`session.Close`, `session.read`,
`session.ping`)

An interleaving model of the three concurrent participants: the reader
loop, the keep-alive loop, and the caller of `Close`.  `Close` runs
`s.cancel()`, then `s.wg.Wait()` (which returns only once both loops
have run their deferred `wg.Done()`), then `conn.Close(StatusNormalClosure)`.
Each loop runs `defer s.cancel()`, so its exit fires the token too. -/

/-- Program counter of the `Close` caller. -/
inductive CloserPC where
  | idle : CloserPC
  | waiting : CloserPC
  | returned : CloserPC
  | socketClosed : CloserPC
deriving DecidableEq

/-- Joint state of the session's concurrency: the one-shot cancellation
token, exit flags of the two background loops (their `wg.Done`), the
`Close` caller's progress, and the number of mailbox pushes so far. -/
structure SysState where
  cancelFired : Bool
  readerExited : Bool
  pingExited : Bool
  closerPC : CloserPC
  pushes : Nat
deriving DecidableEq

/-- Interleaved small steps of the session's three participants.

* `push`: the reader loop, still running, pushes one decoded message to
  the mailbox.
* `readerExit`: the reader loop returns (transport error or observed
  cancellation); its deferred `s.cancel()` fires the token and its
  deferred `s.wg.Done()` marks it exited.
* `pingExit`: likewise for the keep-alive loop.
* `closeCancel`: `Close` begins, firing `s.cancel()` and entering
  `s.wg.Wait()`.
* `closeReturn`: `s.wg.Wait()` returns; enabled only when both loops
  have exited.
* `closeSocket`: after the wait, `conn.Close(StatusNormalClosure, "")`. -/
inductive SysStep : SysState → SysState → Prop where
  | push (s : SysState) (h : s.readerExited = false) :
      SysStep s { s with pushes := s.pushes + 1 }
  | readerExit (s : SysState) (h : s.readerExited = false) :
      SysStep s { s with readerExited := true, cancelFired := true }
  | pingExit (s : SysState) (h : s.pingExited = false) :
      SysStep s { s with pingExited := true, cancelFired := true }
  | closeCancel (s : SysState) (h : s.closerPC = .idle) :
      SysStep s { s with closerPC := .waiting, cancelFired := true }
  | closeReturn (s : SysState) (h : s.closerPC = .waiting)
      (hr : s.readerExited = true) (hp : s.pingExited = true) :
      SysStep s { s with closerPC := .returned }
  | closeSocket (s : SysState) (h : s.closerPC = .returned) :
      SysStep s { s with closerPC := .socketClosed }

/-- Reachability through interleaved steps. -/
def SysReach : SysState → SysState → Prop := Relation.ReflTransGen SysStep

/-- State at session construction (`newSession`). -/
def sysInit : SysState :=
  { cancelFired := false, readerExited := false, pingExited := false
    closerPC := .idle, pushes := 0 }

/-- `Close` has returned to its caller in this state. -/
def closeReturned (s : SysState) : Prop :=
  s.closerPC = CloserPC.returned ∨ s.closerPC = CloserPC.socketClosed

/-! ## Turn-taking controller (`main.go`, `listenForResponses`)

A single event loop selecting among the session mailbox, the one-shot
`questionComplete` signal, a 100ms timer, and context cancellation.
Time is synthetic, in milliseconds; every event carries the value
`time.Now()` would read when the corresponding `select` case runs. -/

/-- `silenceThreshold = 2 * time.Second`, in milliseconds. -/
def silenceThreshold : Nat := 2000

/-- `responseTimeout = 10 * time.Second`, in milliseconds. -/
def responseTimeout : Nat := 10000

/-- The controller's loop-local state: the four mutable locals of
`listenForResponses` plus whether the `questionComplete` channel is
still armed (the loop sets it to `nil` after its first delivery so a
closed channel cannot retrigger). -/
structure TurnState where
  greetingComplete : Bool
  questionSent : Bool
  agentSpeaking : Bool
  lastAudioTime : Nat
  qcArmed : Bool
deriving DecidableEq

/-- Controller state when `listenForResponses` starts: all flags false,
`lastAudioTime = time.Now()` (the synthetic origin 0). -/
def initTurnState : TurnState :=
  { greetingComplete := false, questionSent := false, agentSpeaking := false
    lastAudioTime := 0, qcArmed := true }

/-- One `select` arm firing, stamped with the current synthetic time. -/
inductive TurnEvent where
  | msg (m : Message) (t : Nat) : TurnEvent
  | msgChannelClosed : TurnEvent
  | questionDone (t : Nat) : TurnEvent
  | tick (t : Nat) : TurnEvent
  | ctxDone : TurnEvent

/-- The four ways `listenForResponses` terminates.  `responseComplete`
and `timeout` are the two `return nil` branches; the other two return a
non-nil error. -/
inductive Outcome where
  | responseComplete : Outcome
  | timeout : Outcome
  | mailboxClosed : Outcome
  | ctxCancelled : Outcome
deriving DecidableEq

/-- Whether an outcome surfaces to the caller as an error (a non-nil
return value of `listenForResponses`). -/
def Outcome.isFailure : Outcome → Bool
  | .responseComplete => false
  | .timeout => false
  | .mailboxClosed => true
  | .ctxCancelled => true

/-- Result of processing one event: continue with a new state (with the
time of a `close(sendQuestion)` greeting-complete signal if this step
released it), or terminate. -/
inductive StepOut where
  | cont (s : TurnState) (firedAt : Option Nat) : StepOut
  | stop (o : Outcome) : StepOut
deriving DecidableEq

/-- One iteration of the `for { select { ... } }` loop of
`listenForResponses`, given the arm that fired.

* A `MediaOutputMessage` whose payload base64-decodes to a non-empty
  buffer is written to the recorder's right channel, marks the agent
  speaking and stamps `lastAudioTime`; a payload that fails to decode is
  logged and skipped; a `ClearMessage` is logged only; message types
  without a `switch` case are ignored.
* `questionComplete` (when the channel is still armed): if the question
  was not yet marked sent, mark it, clear the speaking flag and reset
  `lastAudioTime`; then set the channel to `nil`.
* A timer tick evaluates the three silence rules in source order on the
  one `elapsed := time.Since(lastAudioTime)` sample: greeting-complete
  (mutating the locals and releasing `close(sendQuestion)`),
  response-complete (`return nil`), and response-timeout (`return nil`).
  The source mutates `greetingComplete`/`agentSpeaking` in the first rule
  before the later rules read them; the tick branch below expands that
  straight-line mutation into the mutually exclusive outcomes: when the
  greeting rule fires, the updated flags make the response-complete test
  (`agentSpeaking` was just cleared) unsatisfiable, and reduce the
  timeout test to its two remaining conjuncts. -/
def stepTurn (s : TurnState) (e : TurnEvent) : StepOut :=
  match e with
  | .msg m t =>
    match m with
    | .mediaOutput mo =>
      match b64decodeStr mo.media.payload with
      | none => .cont s none
      | some audioData =>
        if audioData.length > 0 then
          .cont { s with agentSpeaking := true, lastAudioTime := t } none
        else .cont s none
    | _ => .cont s none
  | .msgChannelClosed => .stop .mailboxClosed
  | .questionDone t =>
    if s.qcArmed then
      if s.questionSent = false then
        .cont { s with questionSent := true, agentSpeaking := false
                       lastAudioTime := t, qcArmed := false } none
      else .cont { s with qcArmed := false } none
    else .cont s none
  | .tick t =>
    if s.agentSpeaking = true ∧ s.greetingComplete = false ∧
        t - s.lastAudioTime > silenceThreshold then
      if s.questionSent = true ∧ t - s.lastAudioTime > responseTimeout then
        .stop .timeout
      else
        .cont { s with greetingComplete := true, agentSpeaking := false } (some t)
    else if s.greetingComplete = true ∧ s.questionSent = true ∧
        s.agentSpeaking = true ∧ t - s.lastAudioTime > silenceThreshold then
      .stop .responseComplete
    else if s.greetingComplete = true ∧ s.questionSent = true ∧
        s.agentSpeaking = false ∧ t - s.lastAudioTime > responseTimeout then
      .stop .timeout
    else
      .cont s none
  | .ctxDone => .stop .ctxCancelled

/-- Whether the controller is still in its loop or has returned. -/
inductive RunRes where
  | running (s : TurnState) : RunRes
  | finished (o : Outcome) : RunRes
deriving DecidableEq

/-- Run the controller over a script of events.  Returns the times at
which the greeting-complete signal was released together with the final
status. -/
def runTurn (s : TurnState) : List TurnEvent → List Nat × RunRes
  | [] => ([], .running s)
  | e :: es =>
    match stepTurn s e with
    | .cont s' firedAt =>
      let r := runTurn s' es
      (firedAt.toList ++ r.1, r.2)
    | .stop o => ([], .finished o)

/-! ## Shared helper lemmas -/

theorem b64index_b64char : ∀ n : Nat, n < 64 → b64index (b64char n) = some n := by decide

theorem b64char_ne_pad : ∀ n : Nat, n < 64 → b64char n ≠ b64padChar := by decide

/-- StdEncoding round trip on byte lists. -/
theorem b64_roundtrip : ∀ l : List Nat, (∀ x ∈ l, x < 256) →
    b64decode (b64encode l) = some l
  | [] => fun _ => rfl
  | [a] => fun h => by
    have ha : a < 256 := h a (by simp)
    have h1 : a / 4 < 64 := by omega
    have h2 : a % 4 * 16 < 64 := by omega
    simp only [b64encode, b64decode, b64index_b64char _ h1, b64index_b64char _ h2]
    simp only [b64padChar]
    norm_num
    omega
  | [a, b] => fun h => by
    have ha : a < 256 := h a (by simp)
    have hb : b < 256 := h b (by simp)
    have h1 : a / 4 < 64 := by omega
    have h2 : a % 4 * 16 + b / 16 < 64 := by omega
    have h3 : b % 16 * 4 < 64 := by omega
    simp only [b64encode, b64decode, b64index_b64char _ h1, b64index_b64char _ h2,
      b64index_b64char _ h3]
    have hne : b64char (b % 16 * 4) ≠ b64padChar := b64char_ne_pad _ h3
    simp only [b64padChar] at hne ⊢
    simp [hne]
    constructor <;> omega
  | a :: b :: c :: rest => fun h => by
    have ha : a < 256 := h a (by simp)
    have hb : b < 256 := h b (by simp)
    have hc : c < 256 := h c (by simp)
    have ih := b64_roundtrip rest (fun x hx => h x (by simp [hx]))
    have h1 : a / 4 < 64 := by omega
    have h2 : a % 4 * 16 + b / 16 < 64 := by omega
    have h3 : b % 16 * 4 + c / 64 < 64 := by omega
    have h4 : c % 64 < 64 := by omega
    have hne : b64char (c % 64) ≠ b64padChar := b64char_ne_pad _ h4
    simp only [b64encode, b64decode, b64index_b64char _ h1, b64index_b64char _ h2,
      b64index_b64char _ h3, b64index_b64char _ h4]
    simp [hne, ih]
    refine ⟨by omega, by omega, by omega⟩

/-- The chunks concatenate, in send order, back to the original buffer. -/
theorem sendChunks_flatten (data : List Nat) : (sendChunks data).flatten = data := by
  by_cases hd : data = []
  · rw [sendChunks]; simp [hd]
  · rw [sendChunks, dif_neg hd, List.flatten_cons,
      sendChunks_flatten (data.drop CHUNK_SIZE), List.take_append_drop]
termination_by data.length
decreasing_by
  simp only [List.length_drop, CHUNK_SIZE]
  have := List.length_pos.mpr hd
  omega

/-- The chunk lengths depend only on the buffer length. -/
theorem sendChunks_map_length (data : List Nat) :
    (sendChunks data).map List.length = chunkLens data.length := by
  by_cases hd : data = []
  · rw [sendChunks, chunkLens]; simp [hd]
  · have hpos : 0 < data.length := List.length_pos.mpr hd
    rw [sendChunks, dif_neg hd, chunkLens, if_neg (by omega : ¬ data.length = 0)]
    rw [List.map_cons, sendChunks_map_length (data.drop CHUNK_SIZE)]
    simp [Nat.min_comm]
termination_by data.length
decreasing_by
  simp only [List.length_drop, CHUNK_SIZE]
  have := List.length_pos.mpr hd
  omega

theorem chunkLens_step (n : Nat) (h : n ≠ 0) :
    chunkLens n = min CHUNK_SIZE n :: chunkLens (n - CHUNK_SIZE) := by
  rw [chunkLens]; simp [h]

set_option maxRecDepth 4000 in
theorem chunkLens_100000 : chunkLens 100000 = List.replicate 11 8820 ++ [2980] := by
  norm_num [chunkLens_step, CHUNK_SIZE]
  rw [chunkLens]
  simp [List.replicate_succ]

theorem mdSet_append (k : String) (v : Json) :
    ∀ m : List (String × Json), (∀ kv ∈ m, kv.1 ≠ k) → mdSet k v m = m ++ [(k, v)]
  | [], _ => rfl
  | (k', v') :: rest, h => by
    have hk : k' ≠ k := h (k', v') (by simp)
    rw [mdSet, if_neg hk, mdSet_append k v rest (fun kv hkv => h kv (by simp [hkv]))]
    simp

theorem buildMap_go : ∀ (fs m : List (String × Json)),
    List.Pairwise (fun a b => a.1 ≠ b.1) fs →
    (∀ kv ∈ m, ∀ kv2 ∈ fs, kv.1 ≠ kv2.1) →
    fs.foldl (fun m kv => mdSet kv.1 kv.2 m) m = m ++ fs
  | [], m, _, _ => by simp
  | (k, v) :: rest, m, hp, hm => by
    rw [List.foldl_cons]
    rw [mdSet_append k v m (fun kv hkv => hm kv hkv (k, v) (by simp))]
    rw [buildMap_go rest (m ++ [(k, v)]) (List.Pairwise.of_cons hp) ?_]
    · simp
    · intro kv hkv kv2 hkv2
      rcases List.mem_append.mp hkv with h1 | h1
      · exact hm kv h1 kv2 (by simp [hkv2])
      · simp at h1
        subst h1
        exact (List.pairwise_cons.mp hp).1 kv2 hkv2

/-- Rebuilding a duplicate-free field list as a Go map keeps it intact. -/
theorem buildMap_self (fs : List (String × Json))
    (h : List.Pairwise (fun a b => a.1 ≠ b.1) fs) : buildMap fs = fs := by
  rw [buildMap, buildMap_go fs [] h (by simp)]
  simp

/-! ## Round-trip predicates -/

/-- The `Event` struct field carried by a message value. -/
def Message.eventField : Message → MessageType
  | .start m => m.event
  | .ack m => m.event
  | .mediaInput m => m.event
  | .dtmf m => m.event
  | .custom m => m.event
  | .mediaOutput m => m.event
  | .clear m => m.event

/-- The invariant every message the program constructs satisfies: the
wire discriminator (the `Event` field) equals the variant's own type
tag.  `json.Marshal` writes the field, not `Type()`, so the round trip
needs it. -/
def Message.eventTagOk (m : Message) : Prop := m.eventField = m.type

/-- A Go map never holds a duplicate key; this is the corresponding
representation invariant of the canonical `Metadata` list. -/
def Message.metadataCanonical : Message → Prop
  | .start m => List.Pairwise (fun a b => a.1 ≠ b.1) m.metadata
  | .custom m => List.Pairwise (fun a b => a.1 ≠ b.1) m.metadata
  | _ => True

/-- The variants `UnmarshalMessage`'s switch dispatches to. -/
def Message.decodable : Message → Bool
  | .start _ => false
  | .mediaInput _ => false
  | _ => true

/-! ## Wrong-typed-field lemmas for `UnmarshalMessage` -/

/-- A JSON value `json.Unmarshal` cannot place into a `string` field. -/
def jBadForString (v : Json) : Prop := (∀ s, v ≠ .str s) ∧ v ≠ .null

/-- A JSON value `json.Unmarshal` cannot place into a struct or map
field. -/
def jBadForObject (v : Json) : Prop := (∀ fs, v ≠ .obj fs) ∧ v ≠ .null

theorem decodeString_bad (v : Json) (h : jBadForString v) :
    decodeString v = .error .typeError := by
  cases v <;> first
    | rfl
    | exact absurd rfl h.2
    | exact absurd rfl (h.1 _)

theorem decodeStreamConfig_bad (v : Json) (h : jBadForObject v) :
    decodeStreamConfig v = .error .typeError := by
  cases v <;> first
    | rfl
    | exact absurd rfl h.2
    | exact absurd rfl (h.1 _)

theorem decodeMedia_bad (v : Json) (h : jBadForObject v) :
    decodeMedia v = .error .typeError := by
  cases v <;> first
    | rfl
    | exact absurd rfl h.2
    | exact absurd rfl (h.1 _)

theorem decodeMetadata_bad (v : Json) (h : jBadForObject v) :
    decodeMetadata v = .error .typeError := by
  cases v <;> first
    | rfl
    | exact absurd rfl h.2
    | exact absurd rfl (h.1 _)

theorem decodeField_string_cases (fs : List (String × Json)) (k : String) (d : String) :
    decodeField fs k decodeString d = .error .typeError ∨
      ∃ s, decodeField fs k decodeString d = .ok s := by
  unfold decodeField
  cases he : jLookup fs k with
  | none => exact Or.inr ⟨d, rfl⟩
  | some v => cases v <;> simp [decodeString]

theorem unmarshal_bad_event (fs : List (String × Json)) (v : Json)
    (hev : jLookup fs "event" = some v) (hbad : jBadForString v) :
    UnmarshalMessage (.obj fs) = .error .typeError := by
  have h : unmarshalEnvelope (.obj fs) = .error .typeError := by
    simp only [unmarshalEnvelope, decodeField, hev, decodeString_bad v hbad]
  simp only [UnmarshalMessage, h, Bind.bind, Except.bind]

theorem unmarshal_dtmf_bad_dtmf (fs : List (String × Json)) (v : Json)
    (hev : jLookup fs "event" = some (.str "dtmf"))
    (hv : jLookup fs "dtmf" = some v) (hbad : jBadForString v) :
    UnmarshalMessage (.obj fs) = .error .typeError := by
  have hevd : decodeField fs "event" decodeString "" = .ok "dtmf" := by
    rw [decodeField, hev]; rfl
  simp only [UnmarshalMessage, unmarshalEnvelope, hevd, Bind.bind, Except.bind,
    MessageTypeAck, MessageTypeMediaOutput, MessageTypeClear, MessageTypeDTMF,
    MessageTypeCustom]
  norm_num
  simp only [decodeDTMF, Bind.bind, Except.bind, hevd]
  rcases decodeField_string_cases fs "stream_id" "" with h1 | ⟨s1, h1⟩
  · simp [h1, Except.map]
  · simp only [h1, Except.map, Bind.bind, Except.bind]
    simp only [decodeField, hv, decodeString_bad v hbad]
    rw [if_neg (by decide : ¬("dtmf" = "ack")), if_neg (by decide : ¬("dtmf" = "media_output")),
      if_neg (by decide : ¬("dtmf" = "clear"))]

theorem unmarshal_clear_bad_stream_id (fs : List (String × Json)) (v : Json)
    (hev : jLookup fs "event" = some (.str "clear"))
    (hv : jLookup fs "stream_id" = some v) (hbad : jBadForString v) :
    UnmarshalMessage (.obj fs) = .error .typeError := by
  have hevd : decodeField fs "event" decodeString "" = .ok "clear" := by
    rw [decodeField, hev]; rfl
  simp only [UnmarshalMessage, unmarshalEnvelope, hevd, Bind.bind, Except.bind,
    MessageTypeAck, MessageTypeMediaOutput, MessageTypeClear, MessageTypeDTMF,
    MessageTypeCustom]
  norm_num
  simp only [decodeClear, Bind.bind, Except.bind, hevd]
  simp only [decodeField, hv, decodeString_bad v hbad]
  rw [if_neg (by decide : ¬("clear" = "ack")), if_neg (by decide : ¬("clear" = "media_output"))]
  rfl

theorem unmarshal_ack_bad_config (fs : List (String × Json)) (v : Json)
    (hev : jLookup fs "event" = some (.str "ack"))
    (hv : jLookup fs "config" = some v) (hbad : jBadForObject v) :
    UnmarshalMessage (.obj fs) = .error .typeError := by
  have hevd : decodeField fs "event" decodeString "" = .ok "ack" := by
    rw [decodeField, hev]; rfl
  simp only [UnmarshalMessage, unmarshalEnvelope, hevd, Bind.bind, Except.bind,
    MessageTypeAck, MessageTypeMediaOutput, MessageTypeClear, MessageTypeDTMF,
    MessageTypeCustom]
  norm_num
  simp only [decodeAck, Bind.bind, Except.bind, hevd]
  rcases decodeField_string_cases fs "stream_id" "" with h1 | ⟨s1, h1⟩
  · simp [h1, Except.map]
  · simp only [h1, Except.map, Bind.bind, Except.bind]
    simp only [decodeField, hv, decodeStreamConfig_bad v hbad]

theorem unmarshal_ack_bad_input_format (fs cfs : List (String × Json)) (v : Json)
    (hev : jLookup fs "event" = some (.str "ack"))
    (hcfg : jLookup fs "config" = some (.obj cfs))
    (hv : jLookup cfs "input_format" = some v) (hbad : jBadForString v) :
    UnmarshalMessage (.obj fs) = .error .typeError := by
  have hevd : decodeField fs "event" decodeString "" = .ok "ack" := by
    rw [decodeField, hev]; rfl
  have hcfgbad : decodeStreamConfig (.obj cfs) = .error .typeError := by
    simp only [decodeStreamConfig, Bind.bind, Except.bind, decodeField, hv,
      decodeString_bad v hbad]
  simp only [UnmarshalMessage, unmarshalEnvelope, hevd, Bind.bind, Except.bind,
    MessageTypeAck, MessageTypeMediaOutput, MessageTypeClear, MessageTypeDTMF,
    MessageTypeCustom]
  norm_num
  simp only [decodeAck, Bind.bind, Except.bind, hevd]
  rcases decodeField_string_cases fs "stream_id" "" with h1 | ⟨s1, h1⟩
  · simp [h1, Except.map]
  · simp only [h1, Except.map, Bind.bind, Except.bind]
    simp only [decodeField, hcfg, hcfgbad]

theorem unmarshal_media_output_bad_media (fs : List (String × Json)) (v : Json)
    (hev : jLookup fs "event" = some (.str "media_output"))
    (hv : jLookup fs "media" = some v) (hbad : jBadForObject v) :
    UnmarshalMessage (.obj fs) = .error .typeError := by
  have hevd : decodeField fs "event" decodeString "" = .ok "media_output" := by
    rw [decodeField, hev]; rfl
  simp only [UnmarshalMessage, unmarshalEnvelope, hevd, Bind.bind, Except.bind,
    MessageTypeAck, MessageTypeMediaOutput, MessageTypeClear, MessageTypeDTMF,
    MessageTypeCustom]
  norm_num
  simp only [decodeMediaOutput, Bind.bind, Except.bind, hevd]
  rcases decodeField_string_cases fs "stream_id" "" with h1 | ⟨s1, h1⟩
  · simp [h1, Except.map]
  · simp only [h1, Except.map, Bind.bind, Except.bind]
    simp only [decodeField, hv, decodeMedia_bad v hbad]
    rw [if_neg (by decide : ¬("media_output" = "ack"))]

theorem unmarshal_media_output_bad_payload (fs mfs : List (String × Json)) (v : Json)
    (hev : jLookup fs "event" = some (.str "media_output"))
    (hm : jLookup fs "media" = some (.obj mfs))
    (hv : jLookup mfs "payload" = some v) (hbad : jBadForString v) :
    UnmarshalMessage (.obj fs) = .error .typeError := by
  have hevd : decodeField fs "event" decodeString "" = .ok "media_output" := by
    rw [decodeField, hev]; rfl
  have hmbad : decodeMedia (.obj mfs) = .error .typeError := by
    simp only [decodeMedia, Bind.bind, Except.bind, decodeField, hv,
      decodeString_bad v hbad]
  simp only [UnmarshalMessage, unmarshalEnvelope, hevd, Bind.bind, Except.bind,
    MessageTypeAck, MessageTypeMediaOutput, MessageTypeClear, MessageTypeDTMF,
    MessageTypeCustom]
  norm_num
  simp only [decodeMediaOutput, Bind.bind, Except.bind, hevd]
  rcases decodeField_string_cases fs "stream_id" "" with h1 | ⟨s1, h1⟩
  · simp [h1, Except.map]
  · simp only [h1, Except.map, Bind.bind, Except.bind]
    simp only [decodeField, hm, hmbad]
    rw [if_neg (by decide : ¬("media_output" = "ack"))]

theorem unmarshal_custom_bad_metadata (fs : List (String × Json)) (v : Json)
    (hev : jLookup fs "event" = some (.str "custom"))
    (hv : jLookup fs "metadata" = some v) (hbad : jBadForObject v) :
    UnmarshalMessage (.obj fs) = .error .typeError := by
  have hevd : decodeField fs "event" decodeString "" = .ok "custom" := by
    rw [decodeField, hev]; rfl
  simp only [UnmarshalMessage, unmarshalEnvelope, hevd, Bind.bind, Except.bind,
    MessageTypeAck, MessageTypeMediaOutput, MessageTypeClear, MessageTypeDTMF,
    MessageTypeCustom]
  norm_num
  simp only [decodeCustom, Bind.bind, Except.bind, hevd]
  rcases decodeField_string_cases fs "stream_id" "" with h1 | ⟨s1, h1⟩
  · simp [h1, Except.map]
  · simp only [h1, Except.map, Bind.bind, Except.bind]
    simp only [decodeField, hv, decodeMetadata_bad v hbad]
    rw [if_neg (by decide : ¬("custom" = "ack")), if_neg (by decide : ¬("custom" = "media_output")),
      if_neg (by decide : ¬("custom" = "clear")), if_neg (by decide : ¬("custom" = "dtmf"))]

theorem unmarshal_dtmf_missing_fields (fs : List (String × Json))
    (hev : jLookup fs "event" = some (.str "dtmf"))
    (hsid : jLookup fs "stream_id" = none) (hd : jLookup fs "dtmf" = none) :
    UnmarshalMessage (.obj fs) = .ok (.dtmf ⟨"dtmf", "", ""⟩) := by
  have hevd : decodeField fs "event" decodeString "" = .ok "dtmf" := by
    rw [decodeField, hev]; rfl
  simp only [UnmarshalMessage, unmarshalEnvelope, hevd, Bind.bind, Except.bind,
    MessageTypeAck, MessageTypeMediaOutput, MessageTypeClear, MessageTypeDTMF,
    MessageTypeCustom]
  norm_num
  simp only [decodeDTMF, Bind.bind, Except.bind, hevd]
  simp only [decodeField, hsid, hd, Except.map]
  rw [if_neg (by decide : ¬("dtmf" = "ack")), if_neg (by decide : ¬("dtmf" = "media_output")),
    if_neg (by decide : ¬("dtmf" = "clear"))]

theorem unmarshal_ack_bad_stream_id (fs : List (String × Json)) (v : Json)
    (hev : jLookup fs "event" = some (.str "ack"))
    (hv : jLookup fs "stream_id" = some v) (hbad : jBadForString v) :
    UnmarshalMessage (.obj fs) = .error .typeError := by
  have hevd : decodeField fs "event" decodeString "" = .ok "ack" := by
    rw [decodeField, hev]; rfl
  simp only [UnmarshalMessage, unmarshalEnvelope, hevd, Bind.bind, Except.bind,
    MessageTypeAck, MessageTypeMediaOutput, MessageTypeClear, MessageTypeDTMF,
    MessageTypeCustom]
  norm_num
  simp only [decodeAck, Bind.bind, Except.bind, hevd]
  simp only [decodeField, hv, decodeString_bad v hbad, Except.map]

theorem unmarshal_dtmf_bad_stream_id (fs : List (String × Json)) (v : Json)
    (hev : jLookup fs "event" = some (.str "dtmf"))
    (hv : jLookup fs "stream_id" = some v) (hbad : jBadForString v) :
    UnmarshalMessage (.obj fs) = .error .typeError := by
  have hevd : decodeField fs "event" decodeString "" = .ok "dtmf" := by
    rw [decodeField, hev]; rfl
  simp only [UnmarshalMessage, unmarshalEnvelope, hevd, Bind.bind, Except.bind,
    MessageTypeAck, MessageTypeMediaOutput, MessageTypeClear, MessageTypeDTMF,
    MessageTypeCustom]
  norm_num
  simp only [decodeDTMF, Bind.bind, Except.bind, hevd]
  simp only [decodeField, hv, decodeString_bad v hbad, Except.map]
  rw [if_neg (by decide : ¬("dtmf" = "ack")), if_neg (by decide : ¬("dtmf" = "media_output")),
    if_neg (by decide : ¬("dtmf" = "clear"))]

theorem unmarshal_custom_bad_stream_id (fs : List (String × Json)) (v : Json)
    (hev : jLookup fs "event" = some (.str "custom"))
    (hv : jLookup fs "stream_id" = some v) (hbad : jBadForString v) :
    UnmarshalMessage (.obj fs) = .error .typeError := by
  have hevd : decodeField fs "event" decodeString "" = .ok "custom" := by
    rw [decodeField, hev]; rfl
  simp only [UnmarshalMessage, unmarshalEnvelope, hevd, Bind.bind, Except.bind,
    MessageTypeAck, MessageTypeMediaOutput, MessageTypeClear, MessageTypeDTMF,
    MessageTypeCustom]
  norm_num
  simp only [decodeCustom, Bind.bind, Except.bind, hevd]
  simp only [decodeField, hv, decodeString_bad v hbad, Except.map]
  rw [if_neg (by decide : ¬("custom" = "ack")), if_neg (by decide : ¬("custom" = "media_output")),
    if_neg (by decide : ¬("custom" = "clear")), if_neg (by decide : ¬("custom" = "dtmf"))]

theorem unmarshal_media_output_bad_stream_id (fs : List (String × Json)) (v : Json)
    (hev : jLookup fs "event" = some (.str "media_output"))
    (hv : jLookup fs "stream_id" = some v) (hbad : jBadForString v) :
    UnmarshalMessage (.obj fs) = .error .typeError := by
  have hevd : decodeField fs "event" decodeString "" = .ok "media_output" := by
    rw [decodeField, hev]; rfl
  simp only [UnmarshalMessage, unmarshalEnvelope, hevd, Bind.bind, Except.bind,
    MessageTypeAck, MessageTypeMediaOutput, MessageTypeClear, MessageTypeDTMF,
    MessageTypeCustom]
  norm_num
  simp only [decodeMediaOutput, Bind.bind, Except.bind, hevd]
  simp only [decodeField, hv, decodeString_bad v hbad, Except.map]
  rw [if_neg (by decide : ¬("media_output" = "ack"))]

theorem unmarshal_ack_missing_fields (fs : List (String × Json))
    (hev : jLookup fs "event" = some (.str "ack"))
    (hsid : jLookup fs "stream_id" = none) (hcfg : jLookup fs "config" = none) :
    UnmarshalMessage (.obj fs) = .ok (.ack ⟨"ack", "", ⟨""⟩⟩) := by
  have hevd : decodeField fs "event" decodeString "" = .ok "ack" := by
    rw [decodeField, hev]; rfl
  simp only [UnmarshalMessage, unmarshalEnvelope, hevd, Bind.bind, Except.bind,
    MessageTypeAck, MessageTypeMediaOutput, MessageTypeClear, MessageTypeDTMF,
    MessageTypeCustom]
  norm_num
  simp only [decodeAck, Bind.bind, Except.bind, hevd]
  simp only [decodeField, hsid, hcfg, Except.map]

theorem unmarshal_clear_missing_fields (fs : List (String × Json))
    (hev : jLookup fs "event" = some (.str "clear"))
    (hsid : jLookup fs "stream_id" = none) :
    UnmarshalMessage (.obj fs) = .ok (.clear ⟨"clear", ""⟩) := by
  have hevd : decodeField fs "event" decodeString "" = .ok "clear" := by
    rw [decodeField, hev]; rfl
  simp only [UnmarshalMessage, unmarshalEnvelope, hevd, Bind.bind, Except.bind,
    MessageTypeAck, MessageTypeMediaOutput, MessageTypeClear, MessageTypeDTMF,
    MessageTypeCustom]
  norm_num
  simp only [decodeClear, Bind.bind, Except.bind, hevd]
  simp only [decodeField, hsid, Except.map]
  rw [if_neg (by decide : ¬("clear" = "ack")), if_neg (by decide : ¬("clear" = "media_output"))]

theorem unmarshal_custom_missing_fields (fs : List (String × Json))
    (hev : jLookup fs "event" = some (.str "custom"))
    (hsid : jLookup fs "stream_id" = none) (hmd : jLookup fs "metadata" = none) :
    UnmarshalMessage (.obj fs) = .ok (.custom ⟨"custom", "", []⟩) := by
  have hevd : decodeField fs "event" decodeString "" = .ok "custom" := by
    rw [decodeField, hev]; rfl
  simp only [UnmarshalMessage, unmarshalEnvelope, hevd, Bind.bind, Except.bind,
    MessageTypeAck, MessageTypeMediaOutput, MessageTypeClear, MessageTypeDTMF,
    MessageTypeCustom]
  norm_num
  simp only [decodeCustom, Bind.bind, Except.bind, hevd]
  simp only [decodeField, hsid, hmd, Except.map]
  rw [if_neg (by decide : ¬("custom" = "ack")), if_neg (by decide : ¬("custom" = "media_output")),
    if_neg (by decide : ¬("custom" = "clear")), if_neg (by decide : ¬("custom" = "dtmf"))]

theorem unmarshal_media_output_missing_fields (fs : List (String × Json))
    (hev : jLookup fs "event" = some (.str "media_output"))
    (hsid : jLookup fs "stream_id" = none) (hm : jLookup fs "media" = none) :
    UnmarshalMessage (.obj fs) = .ok (.mediaOutput ⟨"media_output", "", ⟨""⟩⟩) := by
  have hevd : decodeField fs "event" decodeString "" = .ok "media_output" := by
    rw [decodeField, hev]; rfl
  simp only [UnmarshalMessage, unmarshalEnvelope, hevd, Bind.bind, Except.bind,
    MessageTypeAck, MessageTypeMediaOutput, MessageTypeClear, MessageTypeDTMF,
    MessageTypeCustom]
  norm_num
  simp only [decodeMediaOutput, Bind.bind, Except.bind, hevd]
  simp only [decodeField, hsid, hm, Except.map]
  rw [if_neg (by decide : ¬("media_output" = "ack"))]

/-! ## Controller lemmas and scripted inputs -/

/-- An inbound agent `MediaOutputMessage` whose payload decodes to the
three bytes 0,0,0 (non-empty audio). -/
def greetingMedia : Message :=
  .mediaOutput { event := "media_output", stream_id := "s", media := { payload := "AAAA" } }

def ticksEvery100 (first : Nat) (n : Nat) : List TurnEvent :=
  (List.range n).map fun i => TurnEvent.tick (first + 100 * i)

def greetingScript : List TurnEvent :=
  TurnEvent.msg greetingMedia 0 :: ticksEvery100 100 4 ++
    TurnEvent.msg greetingMedia 500 :: ticksEvery100 600 21

theorem stepTurn_fired_tick (s : TurnState) (e : TurnEvent) (s' : TurnState) (t : Nat)
    (h : stepTurn s e = .cont s' (some t)) :
    e = .tick t ∧ s.agentSpeaking = true ∧ s.greetingComplete = false ∧
      t - s.lastAudioTime > silenceThreshold := by
  cases e with
  | msg m tm =>
    cases m <;> simp only [stepTurn] at h
    case mediaOutput mo =>
      split at h
      · simp at h
      · split at h <;> simp at h
    all_goals simp at h
  | msgChannelClosed => simp [stepTurn] at h
  | questionDone tq =>
    simp only [stepTurn] at h
    split at h
    · split at h <;> simp at h
    · simp at h
  | ctxDone => simp [stepTurn] at h
  | tick tt =>
    simp only [stepTurn] at h
    split at h
    · rename_i hfire
      split at h
      · simp at h
      · simp only [StepOut.cont.injEq, Option.some.injEq] at h
        obtain ⟨hs, hf⟩ := h
        subst hf
        exact ⟨rfl, hfire.1, hfire.2.1, hfire.2.2⟩
    · split at h
      · simp at h
      · split at h
        · simp at h
        · simp at h

theorem stepTurn_cont_none_greeting (s : TurnState) (e : TurnEvent) (s' : TurnState)
    (h : stepTurn s e = .cont s' none) : s'.greetingComplete = s.greetingComplete := by
  cases e with
  | msg m tm =>
    cases m <;> simp only [stepTurn] at h
    case mediaOutput mo =>
      split at h
      · simp at h; simp [← h]
      · split at h <;> (simp at h; simp [← h])
    all_goals (simp at h; simp [← h])
  | msgChannelClosed => simp [stepTurn] at h
  | questionDone tq =>
    simp only [stepTurn] at h
    split at h
    · split at h <;> (simp at h; simp [← h])
    · simp at h; simp [← h]
  | ctxDone => simp [stepTurn] at h
  | tick tt =>
    simp only [stepTurn] at h
    split at h
    · split at h <;> simp at h
    · split at h
      · simp at h
      · split at h
        · simp at h
        · simp at h; simp [← h]

theorem stepTurn_cont_some_greeting (s : TurnState) (e : TurnEvent) (s' : TurnState) (t : Nat)
    (h : stepTurn s e = .cont s' (some t)) :
    s.greetingComplete = false ∧ s'.greetingComplete = true := by
  obtain ⟨he, hsp, hg, hsil⟩ := stepTurn_fired_tick s e s' t h
  subst he
  refine ⟨hg, ?_⟩
  simp only [stepTurn, if_pos (⟨hsp, hg, hsil⟩ : s.agentSpeaking = true ∧
    s.greetingComplete = false ∧ t - s.lastAudioTime > silenceThreshold)] at h
  split at h
  · simp at h
  · simp only [StepOut.cont.injEq] at h
    rw [← h.1]

theorem runTurn_fires_le : ∀ (es : List TurnEvent) (s : TurnState),
    (runTurn s es).1.length ≤ (if s.greetingComplete then 0 else 1)
  | [], s => by simp [runTurn]
  | e :: es, s => by
    rw [runTurn]
    cases h : stepTurn s e with
    | stop o => simp
    | cont s' f =>
      cases f with
      | none =>
        have hg := stepTurn_cont_none_greeting s e s' h
        have ih := runTurn_fires_le es s'
        simp only [Option.toList, List.nil_append]
        rw [hg] at ih
        exact ih
      | some t =>
        have hg := stepTurn_cont_some_greeting s e s' t h
        have h0 : (runTurn s' es).1.length = 0 := by
          have ih := runTurn_fires_le es s'
          rw [hg.2] at ih
          simpa using ih
        simp [hg.1, h0]

theorem stepTurn_tick_timeout (s : TurnState) (t : Nat)
    (hg : s.greetingComplete = true) (hq : s.questionSent = true)
    (hsp : s.agentSpeaking = false) (ht : t - s.lastAudioTime > responseTimeout) :
    stepTurn s (.tick t) = .stop .timeout := by
  simp [stepTurn, hg, hq, hsp, ht]

theorem stepTurn_tick_waiting (s : TurnState) (t : Nat)
    (hg : s.greetingComplete = true) (hq : s.questionSent = true)
    (hsp : s.agentSpeaking = false) (ht : ¬ t - s.lastAudioTime > responseTimeout) :
    stepTurn s (.tick t) = .cont s none := by
  simp [stepTurn, hg, hq, hsp, ht]

theorem runTurn_timeout : ∀ (es : List TurnEvent) (s : TurnState),
    s.greetingComplete = true → s.questionSent = true → s.agentSpeaking = false →
    (∀ e ∈ es, ∃ t, e = .tick t) →
    (∃ e ∈ es, ∃ t, e = .tick t ∧ t - s.lastAudioTime > responseTimeout) →
    (runTurn s es).2 = .finished .timeout
  | [], s => fun _ _ _ _ hex => by simp at hex
  | e :: es, s => fun hg hq hsp hticks hex => by
    obtain ⟨t, he⟩ := hticks e (by simp)
    subst he
    by_cases ht : t - s.lastAudioTime > responseTimeout
    · rw [runTurn, stepTurn_tick_timeout s t hg hq hsp ht]
    · rw [runTurn, stepTurn_tick_waiting s t hg hq hsp ht]
      apply runTurn_timeout es s hg hq hsp (fun e2 h2 => hticks e2 (by simp [h2]))
      obtain ⟨e2, h2mem, t2, h2tick, h2to⟩ := hex
      rcases List.mem_cons.mp h2mem with hh | hh
      · rw [hh] at h2tick
        injection h2tick with ht2
        rw [← ht2] at h2to
        exact absurd h2to ht
      · exact ⟨e2, hh, t2, h2tick, h2to⟩

theorem readLoop_spec : ∀ evts : List ReadEvt,
    readLoop evts = (mailboxSpec evts, cancelSpec evts)
  | [] => rfl
  | .frame j :: rest => by
    cases hm : UnmarshalMessage j with
    | error e =>
      simp [readLoop, hm, mailboxSpec, cancelSpec, ReadEvt.isFrame, readLoop_spec rest,
        List.takeWhile_cons, List.filterMap_cons, List.any_cons, Except.toOption]
    | ok m =>
      simp [readLoop, hm, mailboxSpec, cancelSpec, ReadEvt.isFrame, readLoop_spec rest,
        List.takeWhile_cons, List.filterMap_cons, List.any_cons, Except.toOption]
  | .readErr :: rest => by
    simp [readLoop, mailboxSpec, cancelSpec, ReadEvt.isFrame, List.takeWhile_cons,
      List.any_cons]

def sysInv (s : SysState) : Prop :=
  (s.closerPC ≠ CloserPC.idle → s.cancelFired = true) ∧
    (closeReturned s → s.readerExited = true ∧ s.pingExited = true)

theorem sysInv_step (s s' : SysState) (hs : SysStep s s') (h : sysInv s) : sysInv s' := by
  obtain ⟨h1, h2⟩ := h
  cases hs with
  | push hp => exact ⟨h1, h2⟩
  | readerExit hp => exact ⟨fun _ => rfl, fun hc => ⟨rfl, (h2 hc).2⟩⟩
  | pingExit hp => exact ⟨fun _ => rfl, fun hc => ⟨(h2 hc).1, rfl⟩⟩
  | closeCancel hp =>
    refine ⟨fun _ => rfl, fun hc => ?_⟩
    rcases hc with hc | hc <;> simp [closeReturned] at hc
  | closeReturn hw hr hpg =>
    exact ⟨fun _ => h1 (by rw [hw]; simp), fun _ => ⟨hr, hpg⟩⟩
  | closeSocket hret =>
    exact ⟨fun _ => h1 (by rw [hret]; simp), fun _ => h2 (Or.inl hret)⟩

theorem sysInv_reach (s : SysState) (h : SysReach sysInit s) : sysInv s := by
  induction h with
  | refl =>
    refine ⟨fun hc => absurd rfl hc, fun hc => ?_⟩
    rcases hc with hc | hc <;> simp [sysInit, closeReturned] at hc
  | tail hab hbc ih => exact sysInv_step _ _ hbc ih

theorem pushes_frozen (s s' : SysState) (h : SysReach s s') (hr : s.readerExited = true) :
    s'.pushes = s.pushes ∧ s'.readerExited = true := by
  induction h with
  | refl => exact ⟨rfl, hr⟩
  | tail hab hbc ih =>
    obtain ⟨ihp, ihr⟩ := ih
    cases hbc with
    | push hp => rw [ihr] at hp; simp at hp
    | readerExit hp => exact ⟨ihp, rfl⟩
    | pingExit hp => exact ⟨ihp, ihr⟩
    | closeCancel hp => exact ⟨ihp, ihr⟩
    | closeReturn hw h1 h2 => exact ⟨ihp, ihr⟩
    | closeSocket hp => exact ⟨ihp, ihr⟩

/-! ## Claims -/

/-- C1: in `Client.NewSession`, a non-Ack first inbound message and a
context-deadline expiry both return an error, but in neither failure
path is the Session closed before returning — only the failed-Send path
calls `s.Close()`.  The claim's "Session is closed before the error is
returned" is violated; the read and ping goroutines leak. -/
theorem claim1_handshake_failure_leaves_session_open :
    establishSession false (.received (.clear ⟨"clear", "s1"⟩)) =
      (.unexpectedFirstMessage "clear", false) ∧
    establishSession false .deadlineExpired = (.timedOut, false) ∧
    (HandshakeResult.unexpectedFirstMessage "clear").isFailure = true ∧
    HandshakeResult.timedOut.isFailure = true ∧
    establishSession true (.received (.clear ⟨"clear", "s1"⟩)) = (.sendFailed, true) :=
  ⟨rfl, rfl, rfl, rfl, rfl⟩

/-- C2: `session.Send` consults no lifecycle state: even after `Close`
has returned it marshals the message and attempts the socket write, and
never returns the declared-but-unused `ErrSessionClosed`. -/
theorem claim2_send_after_close_attempts_write (m : Message) :
    sessionSend true m = .wrote (marshalMessage m) ∧
    sessionSend true m ≠ .errSessionClosed :=
  ⟨rfl, fun h => SendOutcome.noConfusion h⟩

/-- Witness for C2 at a concrete message. -/
theorem claim2_witness :
    sessionSend true (.clear ⟨"clear", "s1"⟩) =
      .wrote (marshalMessage (.clear ⟨"clear", "s1"⟩)) :=
  (claim2_send_after_close_attempts_write (.clear ⟨"clear", "s1"⟩)).1

/-- C3 counterexample: a `StartMessage` is in the closed union, but
decoding its own encoding fails with `ErrUnknownMessageType` because
`UnmarshalMessage`'s switch has no `start` case. -/
theorem claim3_counterexample_start_roundtrip :
    UnmarshalMessage (marshalMessage (.start ⟨"start", "s1", ⟨"pcm_44100"⟩, []⟩)) =
      .error .unknownMessageType := rfl

/-- C3 (amended): each variant in the dispatch table (Ack, MediaOutput,
Clear, DTMF, Custom) round-trips for all field values — including empty
metadata and empty payload — whenever the `Event` field equals the
variant tag and the metadata is duplicate-key-free; the two variants
outside the table (Start, MediaInput) decode to `ErrUnknownMessageType`. -/
theorem claim3_roundtrip_decodable_variants :
    (∀ m : Message, m.eventTagOk → m.metadataCanonical → m.decodable = true →
      UnmarshalMessage (marshalMessage m) = .ok m) ∧
    (∀ m : Message, m.eventTagOk → m.decodable = false →
      UnmarshalMessage (marshalMessage m) = .error .unknownMessageType) := by
  constructor
  · intro m htag hmd hd
    cases m with
    | start m => simp [Message.decodable] at hd
    | mediaInput m => simp [Message.decodable] at hd
    | ack m =>
      obtain ⟨ev, sid, ⟨fmt⟩⟩ := m
      simp [Message.eventTagOk, Message.eventField, Message.type] at htag
      subst htag
      rfl
    | dtmf m =>
      obtain ⟨ev, sid, d⟩ := m
      simp [Message.eventTagOk, Message.eventField, Message.type] at htag
      subst htag
      rfl
    | clear m =>
      obtain ⟨ev, sid⟩ := m
      simp [Message.eventTagOk, Message.eventField, Message.type] at htag
      subst htag
      rfl
    | mediaOutput m =>
      obtain ⟨ev, sid, ⟨p⟩⟩ := m
      simp [Message.eventTagOk, Message.eventField, Message.type] at htag
      subst htag
      rfl
    | custom m =>
      obtain ⟨ev, sid, md⟩ := m
      simp [Message.eventTagOk, Message.eventField, Message.type] at htag
      simp [Message.metadataCanonical] at hmd
      subst htag
      simp [marshalMessage, UnmarshalMessage, unmarshalEnvelope, marshalMetadata,
        decodeField, jLookup, decodeString, decodeCustom, decodeMetadata,
        MessageTypeAck, MessageTypeMediaOutput, MessageTypeClear, MessageTypeDTMF,
        MessageTypeCustom, buildMap_self md hmd, Except.bind, Except.map, Bind.bind]
  · intro m htag hd
    cases m with
    | start m =>
      obtain ⟨ev, sid, ⟨fmt⟩, md⟩ := m
      simp [Message.eventTagOk, Message.eventField, Message.type] at htag
      subst htag
      rfl
    | mediaInput m =>
      obtain ⟨ev, sid, ⟨p⟩⟩ := m
      simp [Message.eventTagOk, Message.eventField, Message.type] at htag
      subst htag
      rfl
    | ack m => simp [Message.decodable] at hd
    | dtmf m => simp [Message.decodable] at hd
    | clear m => simp [Message.decodable] at hd
    | custom m => simp [Message.decodable] at hd
    | mediaOutput m => simp [Message.decodable] at hd

/-- Witness for C3 at concrete messages: an Ack with a config
round-trips; a MediaInput with empty payload decodes to the unknown-type
error. -/
theorem claim3_witness :
    UnmarshalMessage (marshalMessage (.ack ⟨"ack", "s1", ⟨"pcm_44100"⟩⟩)) =
      .ok (.ack ⟨"ack", "s1", ⟨"pcm_44100"⟩⟩) ∧
    UnmarshalMessage (marshalMessage (.mediaInput ⟨"media_input", "s1", ⟨""⟩⟩)) =
      .error .unknownMessageType :=
  ⟨claim3_roundtrip_decodable_variants.1 (.ack ⟨"ack", "s1", ⟨"pcm_44100"⟩⟩) rfl trivial rfl,
   claim3_roundtrip_decodable_variants.2 (.mediaInput ⟨"media_input", "s1", ⟨""⟩⟩) rfl rfl⟩

/-- C4 counterexample: the frame with discriminator `dtmf` and neither
of the variant's required fields `stream_id`, `dtmf` (spec §6) does not
match the variant's required shape, yet `UnmarshalMessage` succeeds and
returns a zero-filled `DTMFMessage` instead of a decode error. -/
theorem claim4_counterexample_missing_fields_decode :
    UnmarshalMessage (.obj [("event", .str "dtmf")]) =
      .ok (.dtmf ⟨"dtmf", "", ""⟩) := rfl

/-- C4 (amended): when the discriminator names a dispatchable variant
and the payload assigns one of that variant's fields (or a nested field)
a JSON value of an incompatible type, `UnmarshalMessage` returns a
decode error (`Except.error`, so no partially-populated value is ever
returned); a frame that merely omits fields decodes with zero values.
The conjunction enumerates every declared field of the five dispatchable
variants: the shared `event` (any frame whose `event` value is
wrong-typed fails before dispatch) and `stream_id` fields, the
variant-specific `config` (with nested `input_format`), `media` (with
nested `payload`), `dtmf` and `metadata` fields, and the zero-value
clause for each of the five variants with all other fields omitted. -/
theorem claim4_wrong_typed_field_is_decode_error :
    (∀ fs v, jLookup fs "event" = some v → jBadForString v →
      UnmarshalMessage (.obj fs) = .error .typeError) ∧
    (∀ fs v, jLookup fs "event" = some (.str "ack") →
      jLookup fs "stream_id" = some v → jBadForString v →
      UnmarshalMessage (.obj fs) = .error .typeError) ∧
    (∀ fs v, jLookup fs "event" = some (.str "media_output") →
      jLookup fs "stream_id" = some v → jBadForString v →
      UnmarshalMessage (.obj fs) = .error .typeError) ∧
    (∀ fs v, jLookup fs "event" = some (.str "clear") →
      jLookup fs "stream_id" = some v → jBadForString v →
      UnmarshalMessage (.obj fs) = .error .typeError) ∧
    (∀ fs v, jLookup fs "event" = some (.str "dtmf") →
      jLookup fs "stream_id" = some v → jBadForString v →
      UnmarshalMessage (.obj fs) = .error .typeError) ∧
    (∀ fs v, jLookup fs "event" = some (.str "custom") →
      jLookup fs "stream_id" = some v → jBadForString v →
      UnmarshalMessage (.obj fs) = .error .typeError) ∧
    (∀ fs v, jLookup fs "event" = some (.str "ack") →
      jLookup fs "config" = some v → jBadForObject v →
      UnmarshalMessage (.obj fs) = .error .typeError) ∧
    (∀ fs cfs v, jLookup fs "event" = some (.str "ack") →
      jLookup fs "config" = some (.obj cfs) →
      jLookup cfs "input_format" = some v → jBadForString v →
      UnmarshalMessage (.obj fs) = .error .typeError) ∧
    (∀ fs v, jLookup fs "event" = some (.str "media_output") →
      jLookup fs "media" = some v → jBadForObject v →
      UnmarshalMessage (.obj fs) = .error .typeError) ∧
    (∀ fs mfs v, jLookup fs "event" = some (.str "media_output") →
      jLookup fs "media" = some (.obj mfs) →
      jLookup mfs "payload" = some v → jBadForString v →
      UnmarshalMessage (.obj fs) = .error .typeError) ∧
    (∀ fs v, jLookup fs "event" = some (.str "dtmf") →
      jLookup fs "dtmf" = some v → jBadForString v →
      UnmarshalMessage (.obj fs) = .error .typeError) ∧
    (∀ fs v, jLookup fs "event" = some (.str "custom") →
      jLookup fs "metadata" = some v → jBadForObject v →
      UnmarshalMessage (.obj fs) = .error .typeError) ∧
    (∀ fs, jLookup fs "event" = some (.str "ack") →
      jLookup fs "stream_id" = none → jLookup fs "config" = none →
      UnmarshalMessage (.obj fs) = .ok (.ack ⟨"ack", "", ⟨""⟩⟩)) ∧
    (∀ fs, jLookup fs "event" = some (.str "media_output") →
      jLookup fs "stream_id" = none → jLookup fs "media" = none →
      UnmarshalMessage (.obj fs) = .ok (.mediaOutput ⟨"media_output", "", ⟨""⟩⟩)) ∧
    (∀ fs, jLookup fs "event" = some (.str "clear") →
      jLookup fs "stream_id" = none →
      UnmarshalMessage (.obj fs) = .ok (.clear ⟨"clear", ""⟩)) ∧
    (∀ fs, jLookup fs "event" = some (.str "dtmf") →
      jLookup fs "stream_id" = none → jLookup fs "dtmf" = none →
      UnmarshalMessage (.obj fs) = .ok (.dtmf ⟨"dtmf", "", ""⟩)) ∧
    (∀ fs, jLookup fs "event" = some (.str "custom") →
      jLookup fs "stream_id" = none → jLookup fs "metadata" = none →
      UnmarshalMessage (.obj fs) = .ok (.custom ⟨"custom", "", []⟩)) :=
  ⟨unmarshal_bad_event, unmarshal_ack_bad_stream_id, unmarshal_media_output_bad_stream_id,
   unmarshal_clear_bad_stream_id, unmarshal_dtmf_bad_stream_id, unmarshal_custom_bad_stream_id,
   unmarshal_ack_bad_config, unmarshal_ack_bad_input_format,
   unmarshal_media_output_bad_media, unmarshal_media_output_bad_payload,
   unmarshal_dtmf_bad_dtmf, unmarshal_custom_bad_metadata,
   unmarshal_ack_missing_fields, unmarshal_media_output_missing_fields,
   unmarshal_clear_missing_fields, unmarshal_dtmf_missing_fields,
   unmarshal_custom_missing_fields⟩

/-- Witness for C4 at a concrete frame: a numeric `stream_id` in an
`ack` frame is a decode error. -/
theorem claim4_witness :
    UnmarshalMessage (.obj [("event", .str "ack"), ("stream_id", .num 5)]) =
      .error .typeError := by
  apply claim4_wrong_typed_field_is_decode_error.2.1
    [("event", .str "ack"), ("stream_id", .num 5)] (.num 5) rfl rfl
  exact ⟨fun s h => (nomatch h), fun h => nomatch h⟩

/-- C5 counterexample: for a 100,000-byte buffer the chunking loop
produces 11 full chunks of 8,820 bytes and one partial chunk of 2,980
bytes — not the 1,880 bytes the claim states (100000 - 11 * 8820 =
2980). -/
theorem claim5_counterexample_partial_chunk_length :
    (sendChunks (List.replicate 100000 0)).map List.length =
      List.replicate 11 8820 ++ [2980] ∧
    (List.replicate 11 8820 ++ [2980] : List Nat) ≠
      List.replicate 11 8820 ++ [1880] := by
  constructor
  · rw [sendChunks_map_length, List.length_replicate, chunkLens_100000]
  · decide

/-- C5 (amended): chunking a 100,000-byte buffer with `CHUNK_SIZE` 8820
yields exactly 12 chunks — 11 full chunks of 8,820 bytes and a final
partial chunk of 2,980 bytes — whose concatenation in send order is the
original buffer, and each chunk base64-round-trips. -/
theorem claim5_chunking_100000 (data : List Nat)
    (hlen : data.length = 100000) (hbytes : ∀ b ∈ data, b < 256) :
    (sendChunks data).length = 12 ∧
    (sendChunks data).map List.length = List.replicate 11 8820 ++ [2980] ∧
    (sendChunks data).flatten = data ∧
    (∀ c ∈ sendChunks data, b64decode (b64encode c) = some c) := by
  have hmap : (sendChunks data).map List.length = List.replicate 11 8820 ++ [2980] := by
    rw [sendChunks_map_length, hlen, chunkLens_100000]
  refine ⟨?_, hmap, sendChunks_flatten data, ?_⟩
  · have := congrArg List.length hmap
    simpa using this
  · intro c hc
    refine b64_roundtrip c fun b hb => hbytes b ?_
    rw [← sendChunks_flatten data]
    exact List.mem_flatten.mpr ⟨c, hc, hb⟩

/-- Witness for C5 at the concrete all-zero 100,000-byte buffer. -/
theorem claim5_witness :
    (List.replicate 100000 0).length = 100000 ∧
    (∀ b ∈ List.replicate 100000 (0 : Nat), b < 256) ∧
    (sendChunks (List.replicate 100000 0)).length = 12 :=
  ⟨List.length_replicate 100000 0,
   fun b hb => by rw [List.eq_of_mem_replicate hb]; decide,
   (claim5_chunking_100000 (List.replicate 100000 0) (List.length_replicate 100000 0)
     (fun b hb => by rw [List.eq_of_mem_replicate hb]; decide)).1⟩

/-- C6: the greeting-complete signal (`close(sendQuestion)`) fires at
most once in any run; it fires only on a timer tick with the agent
marked speaking, greeting not yet complete, and elapsed silence above
the 2-second threshold; and on the scripted input — agent media at t=0
and t=0.5s, 100ms ticks, no further media — it fires exactly once, at
t=2.6s ≥ 2.5s, never twice. -/
theorem claim6_greeting_signal_once :
    (∀ (es : List TurnEvent) (s : TurnState),
      (runTurn s es).1.length ≤ (if s.greetingComplete then 0 else 1)) ∧
    (∀ (s : TurnState) (e : TurnEvent) (s' : TurnState) (t : Nat),
      stepTurn s e = .cont s' (some t) →
      e = .tick t ∧ s.agentSpeaking = true ∧ s.greetingComplete = false ∧
        t - s.lastAudioTime > silenceThreshold) ∧
    ((runTurn initTurnState greetingScript).1 = [2600] ∧ 2500 ≤ 2600) :=
  ⟨runTurn_fires_le, stepTurn_fired_tick, by decide, by norm_num⟩

/-- Witness for C6: the conditional parts applied at concrete inputs —
the fire characterization at a concrete fire step (its `stepTurn`
hypothesis discharged by `decide`), and the at-most-once bound on the
concrete greeting script. -/
theorem claim6_witness :
    ((⟨false, false, true, 0, true⟩ : TurnState).agentSpeaking = true ∧
      (⟨false, false, true, 0, true⟩ : TurnState).greetingComplete = false ∧
      2100 - (⟨false, false, true, 0, true⟩ : TurnState).lastAudioTime > silenceThreshold) ∧
    (runTurn initTurnState greetingScript).1.length ≤ 1 := by
  constructor
  · exact (claim6_greeting_signal_once.2.1 ⟨false, false, true, 0, true⟩ (.tick 2100)
      ⟨true, false, false, 0, true⟩ 2100 (by decide)).2
  · have h := claim6_greeting_signal_once.1 greetingScript initTurnState
    simpa using h

/-- C7: from any controller state with the greeting complete and the
question sent (the `questionComplete` arm clears `agentSpeaking` and is
modelled in `s.lastAudioTime`, the question-sent timestamp), a script of
timer ticks in which no `MediaOutput` arrives and some tick exceeds the
10-second response timeout terminates in the timeout outcome, which
differs from the completion outcome and is not surfaced as an error. -/
theorem claim7_response_timeout_outcome (s : TurnState) (es : List TurnEvent)
    (hg : s.greetingComplete = true) (hq : s.questionSent = true)
    (hsp : s.agentSpeaking = false)
    (hticks : ∀ e ∈ es, ∃ t, e = .tick t)
    (hex : ∃ e ∈ es, ∃ t, e = .tick t ∧ t - s.lastAudioTime > responseTimeout) :
    (runTurn s es).2 = .finished .timeout ∧
    (RunRes.finished .timeout ≠ RunRes.finished .responseComplete) ∧
    Outcome.isFailure .timeout = false :=
  ⟨runTurn_timeout es s hg hq hsp hticks hex, by simp, rfl⟩

/-- Witness for C7: question sent at t=0, single tick at t=10.1s. -/
theorem claim7_witness :
    (runTurn ⟨true, true, false, 0, false⟩ [.tick 10100]).2 = .finished .timeout :=
  (claim7_response_timeout_outcome ⟨true, true, false, 0, false⟩ [.tick 10100]
    rfl rfl rfl
    (fun e he => ⟨10100, by simpa using he⟩)
    ⟨.tick 10100, by simp, 10100, rfl, by decide⟩).1

/-- C8: the reader loop pushes exactly the decodable frames that arrive
before the first transport-level read error, in arrival order, skipping
(not reordering) frames `UnmarshalMessage` rejects; a transport error
terminates the loop (nothing after it is processed) and fires the shared
cancellation token via the deferred `s.cancel()`. -/
theorem claim8_reader_loop_order_and_cancel (evts : List ReadEvt) :
    readLoop evts = (mailboxSpec evts, cancelSpec evts) :=
  readLoop_spec evts

/-- C9: session close is a barrier.  In every reachable state in which
`Close` has returned, both background loops have exited and the
cancellation token has fired; no push ever happens after `Close`
returns; and the socket is closed only after the barrier. -/
theorem claim9_close_barrier :
    (∀ s : SysState, SysReach sysInit s → closeReturned s →
      s.readerExited = true ∧ s.pingExited = true ∧ s.cancelFired = true) ∧
    (∀ s s' : SysState, SysReach sysInit s → closeReturned s → SysReach s s' →
      s'.pushes = s.pushes) ∧
    (∀ s : SysState, SysReach sysInit s → s.closerPC = CloserPC.socketClosed →
      closeReturned s) := by
  refine ⟨fun s hr hc => ?_, fun s s' hr hc hss => ?_, fun s _ h => Or.inr h⟩
  · obtain ⟨h1, h2⟩ := sysInv_reach s hr
    obtain ⟨hrd, hpg⟩ := h2 hc
    refine ⟨hrd, hpg, h1 ?_⟩
    rcases hc with hc | hc <;> rw [hc] <;> simp
  · exact (pushes_frozen s s' hss ((sysInv_reach s hr).2 hc).1).1

/-- Witness for C9 on a concrete interleaving: Close starts, both loops
exit, the wait returns; the theorem yields the barrier facts there. -/
theorem claim9_witness :
    (⟨true, true, true, CloserPC.returned, 0⟩ : SysState).readerExited = true ∧
    (⟨true, true, true, CloserPC.returned, 0⟩ : SysState).pushes =
      (⟨true, true, true, CloserPC.returned, 0⟩ : SysState).pushes := by
  have step1 : SysStep sysInit ⟨true, false, false, CloserPC.waiting, 0⟩ :=
    SysStep.closeCancel sysInit rfl
  have step2 : SysStep ⟨true, false, false, CloserPC.waiting, 0⟩
      ⟨true, true, false, CloserPC.waiting, 0⟩ :=
    SysStep.readerExit ⟨true, false, false, CloserPC.waiting, 0⟩ rfl
  have step3 : SysStep ⟨true, true, false, CloserPC.waiting, 0⟩
      ⟨true, true, true, CloserPC.waiting, 0⟩ :=
    SysStep.pingExit ⟨true, true, false, CloserPC.waiting, 0⟩ rfl
  have step4 : SysStep ⟨true, true, true, CloserPC.waiting, 0⟩
      ⟨true, true, true, CloserPC.returned, 0⟩ :=
    SysStep.closeReturn ⟨true, true, true, CloserPC.waiting, 0⟩ rfl rfl rfl
  have hreach : SysReach sysInit ⟨true, true, true, CloserPC.returned, 0⟩ :=
    ((((Relation.ReflTransGen.refl).tail step1).tail step2).tail step3).tail step4
  exact ⟨(claim9_close_barrier.1 _ hreach (Or.inl rfl)).1,
    claim9_close_barrier.2.1 _ _ hreach (Or.inl rfl) Relation.ReflTransGen.refl⟩

/-- C10: the dispatch switch of `UnmarshalMessage` covers only ack,
media_output, clear, dtmf and custom: a frame whose discriminator is
`start` or `media_input` — both members of the closed union — fails with
`ErrUnknownMessageType`, exactly like a discriminator naming no variant
at all. -/
theorem claim10_dispatch_table_excludes_start_media_input :
    (∀ fs, jLookup fs "event" = some (.str "start") →
      UnmarshalMessage (.obj fs) = .error .unknownMessageType) ∧
    (∀ fs, jLookup fs "event" = some (.str "media_input") →
      UnmarshalMessage (.obj fs) = .error .unknownMessageType) ∧
    (∀ fs s, jLookup fs "event" = some (.str s) →
      s ≠ "ack" → s ≠ "media_output" → s ≠ "clear" → s ≠ "dtmf" → s ≠ "custom" →
      UnmarshalMessage (.obj fs) = .error .unknownMessageType) := by
  have hgen : ∀ fs s, jLookup fs "event" = some (.str s) →
      s ≠ "ack" → s ≠ "media_output" → s ≠ "clear" → s ≠ "dtmf" → s ≠ "custom" →
      UnmarshalMessage (.obj fs) = .error .unknownMessageType := by
    intro fs s hev h1 h2 h3 h4 h5
    have hevd : decodeField fs "event" decodeString "" = .ok s := by
      rw [decodeField, hev]; rfl
    simp only [UnmarshalMessage, unmarshalEnvelope, hevd, Bind.bind, Except.bind,
      MessageTypeAck, MessageTypeMediaOutput, MessageTypeClear, MessageTypeDTMF,
      MessageTypeCustom]
    rw [if_neg h1, if_neg h2, if_neg h3, if_neg h4, if_neg h5]
  exact ⟨fun fs hev => hgen fs "start" hev (by decide) (by decide) (by decide)
      (by decide) (by decide),
    fun fs hev => hgen fs "media_input" hev (by decide) (by decide) (by decide)
      (by decide) (by decide),
    hgen⟩

/-- Witness for C10 on concrete frames with `start` and `media_input`
discriminators. -/
theorem claim10_witness :
    UnmarshalMessage (.obj [("event", .str "start"), ("stream_id", .str "s1")]) =
      .error .unknownMessageType ∧
    UnmarshalMessage (.obj [("event", .str "media_input")]) =
      .error .unknownMessageType :=
  ⟨claim10_dispatch_table_excludes_start_media_input.1
      [("event", .str "start"), ("stream_id", .str "s1")] rfl,
   claim10_dispatch_table_excludes_start_media_input.2.1
      [("event", .str "media_input")] rfl⟩
